import Mathlib

/-!
Shallow embedding of the freelan core control-plane (src/src/core2.cpp):
the results gatherer, the banned-host filter, the inbound event handlers,
the certificate validation pipeline, the periodic contact timers and the
endpoint resolution handler, together with theorems settling the spec
claims about them.
-/

namespace Freelan

/-- A boost::system::error_code; code 0 means success, and the C++
truth-test `if (ec)` is true exactly when the code is nonzero. -/
structure ErrorCode where
  code : Nat
deriving DecidableEq, Repr

/-- boost::asio::error::operation_aborted, the outcome delivered to a
timer callback when the timer was cancelled (ECANCELED). -/
def operationAborted : ErrorCode := ⟨125⟩

/-- The C++ boolean conversion of an error_code: true iff an actual error. -/
def ErrorCode.isError (ec : ErrorCode) : Bool := ec.code ≠ 0

/-- core::ep_type, a concrete transport endpoint: numeric address, port,
and whether the address is IPv4 (address().is_v4()). -/
structure EpType where
  addr : Nat
  port : Nat
  isV4 : Bool
deriving DecidableEq, Repr

/-- The freelan `endpoint` variant: a literal IPv4 or IPv6 endpoint, or a
hostname still to be resolved. -/
inductive Endpoint
  | ipv4 (addr port : Nat)
  | ipv6 (addr port : Nat)
  | hostname (name : String) (port : Nat)
deriving DecidableEq, Repr

/-- to_endpoint (core2.cpp lines 84-94): converts a concrete ep_type into
the endpoint variant, choosing the IPv4 or IPv6 constructor. -/
def to_endpoint (host : EpType) : Endpoint :=
  if host.isV4 then Endpoint.ipv4 host.addr host.port
  else Endpoint.ipv6 host.addr host.port

/-- An ip_network_address from the never_contact_list, modelled as a
closed interval of numeric addresses. -/
structure IpNetworkAddress where
  lo : Nat
  hi : Nat
deriving DecidableEq, Repr

/-- Whether a single network range holds the given address. -/
def IpNetworkAddress.holds (r : IpNetworkAddress) (a : Nat) : Bool :=
  decide (r.lo ≤ a) && decide (a ≤ r.hi)

/-- has_address over a list of network ranges: true iff the address falls
within any of them. -/
def has_address (l : List IpNetworkAddress) (a : Nat) : Bool :=
  l.any (fun r => r.holds a)

/-- A certificate (cert_type), abstracted to an identifier. -/
abbrev Cert := Nat

/-- security_configuration::certificate_validation_method values. -/
inductive CertValidationMethod
  | CVM_DEFAULT
  | CVM_NONE
deriving DecidableEq, Repr

/-- tap_adapter_configuration::type values: TAT_TAP selects bridged/switch
mode, TAT_TUN selects routed mode. -/
inductive TapAdapterType
  | TAT_TAP
  | TAT_TUN
deriving DecidableEq, Repr

/-- The fscp part of the configuration used by the handlers. -/
structure FscpConfiguration where
  never_contact_list : List IpNetworkAddress
  accept_contact_requests : Bool
  accept_contacts : Bool
deriving DecidableEq, Repr

/-- The security part of the configuration used by certificate_is_valid. -/
structure SecurityConfiguration where
  certificate_validation_method : CertValidationMethod
  certificate_validation_callback : Option (Cert → Bool)

/-- The slice of freelan::configuration consulted by the embedded code. -/
structure Configuration where
  fscp : FscpConfiguration
  security : SecurityConfiguration
  tap_adapter_type : TapAdapterType

/-- core::is_banned (lines 206-209): membership of the address in the
configured never_contact_list ranges. -/
def is_banned (cfg : Configuration) (address : Nat) : Bool :=
  has_address cfg.fscp.never_contact_list address

/-- Asynchronous operations a handler can issue toward the secure channel
service as a side effect. -/
inductive Action
  | introduceTo (target : EpType)
  | requestSession (target : EpType)
  | contact (target : Endpoint)
deriving DecidableEq, Repr

/-- core::do_handle_hello_received (lines 449-466): a banned sender forces
default_accept to false; when the (possibly overridden) default_accept is
true an introduction is sent back; the verdict is returned. -/
def do_handle_hello_received (cfg : Configuration) (sender : EpType)
    (default_accept : Bool) : Bool × List Action :=
  let default_accept := if is_banned cfg sender.addr then false else default_accept
  (default_accept, if default_accept then [Action.introduceTo sender] else [])

/-- core::do_handle_contact_request_received (lines 468-480): returns true
iff accept_contact_requests is enabled; the event is otherwise only logged. -/
def do_handle_contact_request_received (cfg : Configuration) (_sender : EpType)
    (_cert : Cert) (_hash : Nat) (_answer : EpType) : Bool :=
  if cfg.fscp.accept_contact_requests then true else false

/-- core::do_handle_contact_received (lines 482-498): when contacts are
accepted and the announced answer address is not banned, a contact is
issued toward the announced address; otherwise nothing is issued. -/
def do_handle_contact_received (cfg : Configuration) (_sender : EpType)
    (_hash : Nat) (answer : EpType) : List Action :=
  if cfg.fscp.accept_contacts then
    if is_banned cfg answer.addr then []
    else [Action.contact (to_endpoint answer)]
  else []

/-- core::certificate_validation_method (lines 690-705): the per-certificate
verification callback only logs and passes the engine verdict through. -/
def certificate_validation_method (ok : Bool) : Bool := ok

/-- core::certificate_is_valid (lines 707-745). The structural chain
verification performed by the OpenSSL store context is abstracted as the
chainVerify parameter. The second component of the result records whether
the externally configured validator callback was invoked. In CVM_DEFAULT
mode a structural verification failure returns false immediately; otherwise
(and always in CVM_NONE mode) the optional external callback, when present,
gives the final verdict. -/
def certificate_is_valid (cfg : Configuration) (chainVerify : Cert → Bool)
    (cert : Cert) : Bool × Bool :=
  match cfg.security.certificate_validation_method with
  | CertValidationMethod.CVM_DEFAULT =>
      if !(chainVerify cert) then (false, false)
      else
        match cfg.security.certificate_validation_callback with
        | some f => (f cert, true)
        | none => (true, false)
  | CertValidationMethod.CVM_NONE =>
      match cfg.security.certificate_validation_callback with
      | some f => (f cert, true)
      | none => (true, false)

/-- core::do_handle_presentation_received (lines 500-523): a banned sender
is rejected outright; otherwise both certificates must pass
certificate_is_valid, in which case a session request is issued toward the
sender and the presentation is accepted; any validation failure rejects
with no further action. -/
def do_handle_presentation_received (cfg : Configuration)
    (chainVerify : Cert → Bool) (sender : EpType) (sig_cert enc_cert : Cert)
    (_is_new : Bool) : Bool × List Action :=
  if is_banned cfg sender.addr then (false, [])
  else if (certificate_is_valid cfg chainVerify sig_cert).1
       && (certificate_is_valid cfg chainVerify enc_cert).1 then
    (true, [Action.requestSession sender])
  else (false, [])

/-- core::CONTACT_PERIOD (line 140): 30 seconds. -/
def CONTACT_PERIOD : Nat := 30

/-- core::DYNAMIC_CONTACT_PERIOD (line 141): 45 seconds. -/
def DYNAMIC_CONTACT_PERIOD : Nat := 45

/-- A boost::asio deadline_timer, reduced to its expiry time point. -/
structure DeadlineTimer where
  expiry : Nat
deriving DecidableEq, Repr

/-- deadline_timer::expires_from_now: sets the expiry to the current time
plus the given duration, discarding the previous expiry time. -/
def DeadlineTimer.expires_from_now (_t : DeadlineTimer) (now d : Nat) :
    DeadlineTimer :=
  ⟨now + d⟩

/-- Observable outcome of one periodic timer callback: whether the
contact-all operation ran, the timer state afterwards, and whether
async_wait was called again (the loop re-armed). -/
structure TickResult where
  contacted : Bool
  timer : DeadlineTimer
  rearmed : Bool
deriving DecidableEq, Repr

/-- core::do_handle_periodic_contact (lines 395-404): unless the callback
was invoked for cancellation, run async_contact_all, set the next expiry
with expires_from_now(CONTACT_PERIOD) and re-arm the timer. -/
def do_handle_periodic_contact (ec : ErrorCode) (timer : DeadlineTimer)
    (now : Nat) : TickResult :=
  if ec ≠ operationAborted then
    ⟨true, timer.expires_from_now now CONTACT_PERIOD, true⟩
  else ⟨false, timer, false⟩

/-- core::do_handle_periodic_dynamic_contact (lines 406-415): unless the
callback was invoked for cancellation, run async_dynamic_contact_all, set
the next expiry with expires_from_now(DYNAMIC_CONTACT_PERIOD) and re-arm. -/
def do_handle_periodic_dynamic_contact (ec : ErrorCode) (timer : DeadlineTimer)
    (now : Nat) : TickResult :=
  if ec ≠ operationAborted then
    ⟨true, timer.expires_from_now now DYNAMIC_CONTACT_PERIOD, true⟩
  else ⟨false, timer, false⟩

/-- The static contact loop over a sequence of delivered timer outcomes:
counts the async_contact_all invocations. Each delivered outcome runs the
handler; only when the handler re-armed the timer is a later outcome
delivered. After core::close_server (lines 277-284) cancels the timer, the
next delivered outcome is operationAborted. -/
def runContactLoop : DeadlineTimer → Nat → List ErrorCode → Nat
  | _, _, [] => 0
  | timer, now, ec :: rest =>
      let r := do_handle_periodic_contact ec timer now
      (if r.contacted then 1 else 0) +
        (if r.rearmed then runContactLoop r.timer r.timer.expiry rest else 0)

/-- The dynamic contact loop over a sequence of delivered timer outcomes:
counts the async_dynamic_contact_all invocations. -/
def runDynamicContactLoop : DeadlineTimer → Nat → List ErrorCode → Nat
  | _, _, [] => 0
  | timer, now, ec :: rest =>
      let r := do_handle_periodic_dynamic_contact ec timer now
      (if r.contacted then 1 else 0) +
        (if r.rearmed then runDynamicContactLoop r.timer r.timer.expiry rest else 0)

/-- Which of the two handlers bound in core::async_contact a resolution
outcome reaches: the success handler (do_contact with the first resolved
endpoint) or the error handler. -/
inductive ResolveOutcome
  | success (ep : EpType)
  | failure (ec : ErrorCode)
deriving DecidableEq, Repr

/-- resolve_handler (core2.cpp lines 72-82), exactly as written: when the
error_code tests true the success handler is invoked with the dereferenced
iterator, otherwise the error handler is invoked with the error_code.
The firstResult argument stands for *it. -/
def resolve_handler (ec : ErrorCode) (firstResult : EpType) : ResolveOutcome :=
  if ec.isError then ResolveOutcome.success firstResult
  else ResolveOutcome.failure ec

/-- The arguments the error path of core::async_contact (line 289) binds
onto the duration handler: a default-constructed ep_type, the error code,
and a zero-valued duration placeholder. -/
structure DurationCallbackArgs where
  ep : EpType
  ec : ErrorCode
  duration : Nat
deriving DecidableEq, Repr

/-- The error handler bound in core::async_contact (line 289). -/
def async_contact_error_handler (ec : ErrorCode) : DurationCallbackArgs :=
  ⟨⟨0, 0, true⟩, ec, 0⟩

/-- State of a results_gatherer (lines 96-132): the pending key set m_keys
and the accumulated result map m_results, as lists. -/
structure ResultsGatherer (K V : Type) where
  m_keys : List K
  m_results : List (K × V)
deriving DecidableEq, Repr

/-- std::map operator[] assignment on an association list: overwrite the
entry for the key when present, append it otherwise. -/
def map_insert {K V : Type} [DecidableEq K] :
    List (K × V) → K → V → List (K × V)
  | [], k, v => [(k, v)]
  | (k2, v2) :: rest, k, v =>
      if k2 = k then (k, v) :: rest else (k2, v2) :: map_insert rest k v

/-- results_gatherer::gather (lines 109-124): erase the key from the
pending set; the assertion erased_count == 1 fires (modelled as none,
aborting) when the key was not pending; otherwise record the value and,
when the pending set became empty, invoke the completion handler with the
accumulated map (the optional second component of the result). -/
def gather {K V : Type} [DecidableEq K] (g : ResultsGatherer K V) (key : K)
    (value : V) : Option (ResultsGatherer K V × Option (List (K × V))) :=
  if key ∈ g.m_keys then
    let keys := g.m_keys.erase key
    let results := map_insert g.m_results key value
    some (⟨keys, results⟩, if keys.isEmpty then some results else none)
  else none

/-- Run a sequence of gather calls from a gatherer state, collecting every
completion-handler invocation (each with the map it was given); none when
some call hit the assertion. -/
def runGather {K V : Type} [DecidableEq K] (g : ResultsGatherer K V) :
    List (K × V) → Option (ResultsGatherer K V × List (List (K × V)))
  | [] => some (g, [])
  | (k, v) :: rest =>
      match gather g k v with
      | none => none
      | some (g2, fire) =>
          match runGather g2 rest with
          | none => none
          | some (g3, fires) => some (g3, fire.toList ++ fires)

/-- Modelled from the spec: the forwarding-port registration bodies of
core::do_handle_session_established and core::do_handle_session_lost
(lines 570-640) are commented-out TODO stubs in the source, so the
peer-to-forwarding-port association is modelled from the spec: one
switch-port map for bridged (TAT_TAP) mode and one router-port map for
routed (TAT_TUN) mode, each keyed by peer endpoint. -/
structure PortState where
  endpoint_switch_port_map : List EpType
  endpoint_router_port_map : List EpType
deriving DecidableEq, Repr

/-- Register/unregister calls issued toward the external forwarding
component (switch or router). -/
inductive PortAction
  | registerSwitchPort (host : EpType)
  | registerRouterPort (host : EpType)
  | unregisterSwitchPort (host : EpType)
  | unregisterRouterPort (host : EpType)
deriving DecidableEq, Repr

/-- Number of forwarding-port handles held for a host in the map of the
configured mode. -/
def PortState.handleCount (st : PortState) (mode : TapAdapterType)
    (host : EpType) : Nat :=
  match mode with
  | TapAdapterType.TAT_TAP => st.endpoint_switch_port_map.count host
  | TapAdapterType.TAT_TUN => st.endpoint_router_port_map.count host

/-- Modelled from the spec: on session-established, only a new session
(is_new = true) creates a forwarding port handle for the peer, registered
with the component of the configured mode; a renewal creates nothing, and
an already-registered peer is not registered twice. -/
def handle_session_established (mode : TapAdapterType) (st : PortState)
    (host : EpType) (is_new : Bool) : PortState × List PortAction :=
  if is_new then
    match mode with
    | TapAdapterType.TAT_TAP =>
        if host ∈ st.endpoint_switch_port_map then (st, [])
        else (⟨host :: st.endpoint_switch_port_map, st.endpoint_router_port_map⟩,
              [PortAction.registerSwitchPort host])
    | TapAdapterType.TAT_TUN =>
        if host ∈ st.endpoint_router_port_map then (st, [])
        else (⟨st.endpoint_switch_port_map, host :: st.endpoint_router_port_map⟩,
              [PortAction.registerRouterPort host])
  else (st, [])

/-- Modelled from the spec: on session-lost, when a forwarding port handle
exists for the peer it is unregistered and the association removed;
absence of a handle is a no-op, not an error. -/
def handle_session_lost (mode : TapAdapterType) (st : PortState)
    (host : EpType) : PortState × List PortAction :=
  match mode with
  | TapAdapterType.TAT_TAP =>
      if host ∈ st.endpoint_switch_port_map then
        (⟨st.endpoint_switch_port_map.erase host, st.endpoint_router_port_map⟩,
         [PortAction.unregisterSwitchPort host])
      else (st, [])
  | TapAdapterType.TAT_TUN =>
      if host ∈ st.endpoint_router_port_map then
        (⟨st.endpoint_switch_port_map, st.endpoint_router_port_map.erase host⟩,
         [PortAction.unregisterRouterPort host])
      else (st, [])

/-- A session lifecycle event delivered by the secure channel service. -/
inductive SessionEvent
  | established (host : EpType) (is_new : Bool)
  | lost (host : EpType)
deriving DecidableEq, Repr

/-- One session event applied to the port state. -/
def stepSession (mode : TapAdapterType) (st : PortState) :
    SessionEvent → PortState × List PortAction
  | SessionEvent.established h n => handle_session_established mode st h n
  | SessionEvent.lost h => handle_session_lost mode st h

/-- The port state reached after a sequence of session events. -/
def runSession (mode : TapAdapterType) (st : PortState) :
    List SessionEvent → PortState
  | [] => st
  | e :: rest => runSession mode (stepSession mode st e).1 rest

/-- A sample configuration: addresses 0 to 100 are banned, contact
requests and contacts are accepted, chain validation with no external
callback, bridged mode. -/
def exampleConfig : Configuration :=
  ⟨⟨[⟨0, 100⟩], true, true⟩,
   ⟨CertValidationMethod.CVM_DEFAULT, none⟩,
   TapAdapterType.TAT_TAP⟩

/-!  Theorems settling the claims. -/

/-- C5: evaluation of resolve_handler as written in the source at the
failing input. On a successful resolution (error code 0, first resolved
endpoint 203.0.113.5:12000) the code invokes the error handler carrying
the no-error code, and on a failed resolution (error code 110) it invokes
the success handler with the dereferenced iterator: the branches of the
`if (ec)` test are inverted with respect to the specified behaviour, under
which the success handler is invoked if and only if there was no error. -/
theorem resolve_handler_inverted_eval :
    resolve_handler ⟨0⟩ ⟨3405803781, 12000, true⟩ =
      ResolveOutcome.failure ⟨0⟩ ∧
    resolve_handler ⟨110⟩ ⟨1, 1, true⟩ =
      ResolveOutcome.success ⟨1, 1, true⟩ ∧
    async_contact_error_handler ⟨0⟩ = ⟨⟨0, 0, true⟩, ⟨0⟩, 0⟩ := by
  refine ⟨rfl, rfl, rfl⟩

/-- C6 counterexample: a timer whose previous expiry was at time 0 has its
callback handled at time 5 (respectively 7 for the dynamic loop) after a
normal (non-cancelled) expiry; the code sets the next expiry to
handling-time + period (35, resp. 52), which differs from
previous-expiry + period (30, resp. 45) as the claim states it. -/
theorem periodic_timer_drift_cex :
    (do_handle_periodic_contact ⟨0⟩ ⟨0⟩ 5).timer.expiry = 35 ∧
    ¬ (35 = 0 + CONTACT_PERIOD) ∧
    (do_handle_periodic_dynamic_contact ⟨0⟩ ⟨0⟩ 7).timer.expiry = 52 ∧
    ¬ (52 = 0 + DYNAMIC_CONTACT_PERIOD) := by
  refine ⟨rfl, by decide, rfl, by decide⟩

/-- C6 amended: on every normal (non-cancelled) timer expiry, each
periodic contact loop computes its next firing deadline as the current
time at the moment of handling plus the loop period (30s static, 45s
dynamic), via expires_from_now, regardless of the previous expiry time
stored in the timer. -/
theorem periodic_timer_reschedules_from_now (ec : ErrorCode)
    (timer : DeadlineTimer) (now : Nat) (h : ec ≠ operationAborted) :
    (do_handle_periodic_contact ec timer now).timer.expiry =
      now + CONTACT_PERIOD ∧
    (do_handle_periodic_dynamic_contact ec timer now).timer.expiry =
      now + DYNAMIC_CONTACT_PERIOD := by
  unfold do_handle_periodic_contact do_handle_periodic_dynamic_contact
  rw [if_pos h, if_pos h]
  exact ⟨rfl, rfl⟩

/-- C6 witness: the amended theorem applied at a normal expiry outcome
(error code 0) handled at time 100 on a timer with previous expiry 0. -/
theorem periodic_timer_reschedules_from_now_witness :
    (do_handle_periodic_contact ⟨0⟩ ⟨0⟩ 100).timer.expiry =
      100 + CONTACT_PERIOD ∧
    (do_handle_periodic_dynamic_contact ⟨0⟩ ⟨0⟩ 100).timer.expiry =
      100 + DYNAMIC_CONTACT_PERIOD :=
  periodic_timer_reschedules_from_now ⟨0⟩ ⟨0⟩ 100 (by decide)

/-- C7: a periodic loop callback invoked with the cancellation outcome
(operation_aborted, as delivered after core::close_server cancels both
timers) runs no contact_all / dynamic_contact_all and does not re-arm the
timer; consequently a loop whose next delivered outcome is the
cancellation performs zero further contact invocations, whatever outcomes
would have followed. -/
theorem cancelled_timer_no_contact_no_reschedule (timer : DeadlineTimer)
    (now : Nat) (rest : List ErrorCode) :
    do_handle_periodic_contact operationAborted timer now =
      ⟨false, timer, false⟩ ∧
    do_handle_periodic_dynamic_contact operationAborted timer now =
      ⟨false, timer, false⟩ ∧
    runContactLoop timer now (operationAborted :: rest) = 0 ∧
    runDynamicContactLoop timer now (operationAborted :: rest) = 0 := by
  have h1 : do_handle_periodic_contact operationAborted timer now =
      ⟨false, timer, false⟩ := by
    unfold do_handle_periodic_contact
    rw [if_neg]
    simp
  have h2 : do_handle_periodic_dynamic_contact operationAborted timer now =
      ⟨false, timer, false⟩ := by
    unfold do_handle_periodic_dynamic_contact
    rw [if_neg]
    simp
  refine ⟨h1, h2, ?_, ?_⟩
  · unfold runContactLoop
    rw [h1]
    simp
  · unfold runDynamicContactLoop
    rw [h2]
    simp

/-- C9 counterexample: with the sample configuration (addresses 0 to 100
banned, contact requests accepted), the sender 50:12000 is banned, yet
do_handle_contact_request_received accepts its contact request: the ban
filter is not applied on the contact-request path. -/
theorem contact_request_ignores_ban_cex :
    is_banned exampleConfig 50 = true ∧
    do_handle_contact_request_received exampleConfig ⟨50, 12000, true⟩ 0 0
      ⟨200, 12000, true⟩ = true := by
  refine ⟨by decide, rfl⟩

/-- C9 amended: the inbound contact-request handler does not consult the
banned-host membership test; it accepts exactly when the
accept_contact_requests configuration flag is enabled, regardless of the
sender, the certificate, the hash, the announced answer endpoint, or the
banned set. -/
theorem contact_request_accept_flag_only (cfg : Configuration)
    (sender : EpType) (cert : Cert) (h : Nat) (answer : EpType) :
    do_handle_contact_request_received cfg sender cert h answer =
      cfg.fscp.accept_contact_requests := by
  unfold do_handle_contact_request_received
  cases hf : cfg.fscp.accept_contact_requests <;> simp [hf]

/-- C2: for every banned address A, an inbound hello from A is rejected
(the handler returns false) whatever default_accept the transport
suggested, with no introduction sent back, and an inbound contact event
announcing A as the answer address never issues a contact toward A. -/
theorem banned_host_hello_and_contact_filtered (cfg : Configuration)
    (A : Nat) (hban : is_banned cfg A = true) :
    (∀ (port : Nat) (v4 : Bool) (default_accept : Bool),
        (do_handle_hello_received cfg ⟨A, port, v4⟩ default_accept).1 = false ∧
        (do_handle_hello_received cfg ⟨A, port, v4⟩ default_accept).2 = []) ∧
    (∀ (sender : EpType) (h : Nat) (port : Nat) (v4 : Bool),
        Action.contact (to_endpoint ⟨A, port, v4⟩) ∉
          do_handle_contact_received cfg sender h ⟨A, port, v4⟩) := by
  constructor
  · intro port v4 default_accept
    unfold do_handle_hello_received
    simp [hban]
  · intro sender h port v4
    unfold do_handle_contact_received
    cases hf : cfg.fscp.accept_contacts
    · simp
    · simp only [hban, if_true, if_false]
      simp

/-- C2 witness: the theorem applied to the sample configuration and the
banned address 50, then instantiated at a hello with default_accept true
and a contact announcing 50:7000. -/
theorem banned_host_hello_and_contact_filtered_witness :
    (do_handle_hello_received exampleConfig ⟨50, 12000, true⟩ true).1 = false ∧
    Action.contact (to_endpoint ⟨50, 7000, true⟩) ∉
      do_handle_contact_received exampleConfig ⟨200, 1, true⟩ 9 ⟨50, 7000, true⟩ :=
  ⟨((banned_host_hello_and_contact_filtered exampleConfig 50 (by decide)).1
      12000 true true).1,
   (banned_host_hello_and_contact_filtered exampleConfig 50 (by decide)).2
      ⟨200, 1, true⟩ 9 7000 true⟩

/-- C3: an inbound presentation from a banned sender is rejected with no
action; from a non-banned sender the handler accepts and issues a session
request toward the sender exactly when both the signature and the
cipherment certificate pass certificate_is_valid, and rejects with no
action when either fails. -/
theorem presentation_ban_and_validation_gate (cfg : Configuration)
    (cv : Cert → Bool) (sender : EpType) (sig_cert enc_cert : Cert)
    (is_new : Bool) :
    (is_banned cfg sender.addr = true →
       do_handle_presentation_received cfg cv sender sig_cert enc_cert is_new =
         (false, [])) ∧
    (is_banned cfg sender.addr = false →
       ((certificate_is_valid cfg cv sig_cert).1 = true ∧
        (certificate_is_valid cfg cv enc_cert).1 = true →
          do_handle_presentation_received cfg cv sender sig_cert enc_cert is_new =
            (true, [Action.requestSession sender])) ∧
       ((certificate_is_valid cfg cv sig_cert).1 = false ∨
        (certificate_is_valid cfg cv enc_cert).1 = false →
          do_handle_presentation_received cfg cv sender sig_cert enc_cert is_new =
            (false, []))) := by
  unfold do_handle_presentation_received
  constructor
  · intro hban
    simp [hban]
  · intro hban
    constructor
    · intro hvalid
      simp [hban, hvalid.1, hvalid.2]
    · intro hfail
      rcases hfail with hf | hf <;> simp [hban, hf]

/-- C3 witness: with the sample configuration, a non-banned sender
200:12000, chain verification accepting every certificate and no external
callback, the presentation is accepted and a session request is issued. -/
theorem presentation_ban_and_validation_gate_witness :
    do_handle_presentation_received exampleConfig (fun _ => true)
      ⟨200, 12000, true⟩ 3 4 true = (true, [Action.requestSession ⟨200, 12000, true⟩]) :=
  ((presentation_ban_and_validation_gate exampleConfig (fun _ => true)
      ⟨200, 12000, true⟩ 3 4 true).2 (by decide)).1 ⟨by decide, by decide⟩

/-- C8: calling gather with a key that is not in the pending set (a key
already reported, or one never expected) hits the erased_count assertion
and aborts: the call is modelled as none, so it records no value and
cannot fire the completion handler as if it were a valid report. -/
theorem gather_unexpected_key_aborts {K V : Type} [DecidableEq K]
    (g : ResultsGatherer K V) (k : K) (v : V) (h : k ∉ g.m_keys) :
    gather g k v = none := by
  unfold gather
  rw [if_neg h]

/-- C8 witness: the theorem applied to a gatherer expecting only key 1,
called with the never-expected key 2. -/
theorem gather_unexpected_key_aborts_witness :
    gather (⟨[1], []⟩ : ResultsGatherer Nat Nat) 2 7 = none :=
  gather_unexpected_key_aborts ⟨[1], []⟩ 2 7 (by decide)

/-- C10: in CVM_DEFAULT (chain) mode, when structural chain verification
fails for a certificate, certificate_is_valid returns false immediately
and the external validator callback is not invoked; whenever the callback
is invoked, either the mode is CVM_NONE or structural verification
succeeded, and the callback verdict is the final result; in CVM_NONE mode
a configured callback is always consulted and decides the result. -/
theorem certificate_validator_callback_gating (cfg : Configuration)
    (cv : Cert → Bool) (cert : Cert) :
    (cfg.security.certificate_validation_method =
        CertValidationMethod.CVM_DEFAULT →
      cv cert = false →
      certificate_is_valid cfg cv cert = (false, false)) ∧
    ((certificate_is_valid cfg cv cert).2 = true →
      (cfg.security.certificate_validation_method =
          CertValidationMethod.CVM_NONE ∨ cv cert = true) ∧
      ∃ f, cfg.security.certificate_validation_callback = some f ∧
        (certificate_is_valid cfg cv cert).1 = f cert) ∧
    (cfg.security.certificate_validation_method =
        CertValidationMethod.CVM_NONE →
      ∀ f, cfg.security.certificate_validation_callback = some f →
        certificate_is_valid cfg cv cert = (f cert, true)) := by
  refine ⟨?_, ?_, ?_⟩
  · intro hm hcv
    unfold certificate_is_valid
    rw [hm]
    simp [hcv]
  · intro hinv
    unfold certificate_is_valid at hinv ⊢
    cases hm : cfg.security.certificate_validation_method <;> rw [hm] at hinv
    · cases hcv : cv cert <;> rw [hcv] at hinv
      · simp at hinv
      · cases hcb : cfg.security.certificate_validation_callback <;>
          rw [hcb] at hinv
        · simp at hinv
        · rename_i f
          exact ⟨Or.inr rfl, f, rfl, by simp [hcv, hcb]⟩
    · cases hcb : cfg.security.certificate_validation_callback <;>
        rw [hcb] at hinv
      · simp at hinv
      · rename_i f
        exact ⟨Or.inl rfl, f, rfl, by simp [hm, hcb]⟩
  · intro hm f hcb
    unfold certificate_is_valid
    rw [hm, hcb]

/-- C10 witness: the theorem applied to the sample configuration (chain
mode, no callback) with chain verification rejecting every certificate:
validation of certificate 0 returns false with the callback not invoked. -/
theorem certificate_validator_callback_gating_witness :
    certificate_is_valid exampleConfig (fun _ => false) 0 = (false, false) :=
  (certificate_validator_callback_gating exampleConfig (fun _ => false) 0).1
    rfl rfl

/-- One session event keeps both port maps duplicate-free. -/
lemma stepSession_preserves_nodup (mode : TapAdapterType) (st : PortState)
    (e : SessionEvent)
    (h1 : st.endpoint_switch_port_map.Nodup)
    (h2 : st.endpoint_router_port_map.Nodup) :
    (stepSession mode st e).1.endpoint_switch_port_map.Nodup ∧
    (stepSession mode st e).1.endpoint_router_port_map.Nodup := by
  cases e with
  | established p n =>
      simp only [stepSession, handle_session_established]
      cases n with
      | false => simpa using ⟨h1, h2⟩
      | true =>
          cases mode with
          | TAT_TAP =>
              by_cases hm : p ∈ st.endpoint_switch_port_map
              · simpa [hm] using ⟨h1, h2⟩
              · simp only [hm, if_true, if_false, ite_false, ite_true]
                simp only [List.nodup_cons]
                exact ⟨⟨hm, h1⟩, h2⟩
          | TAT_TUN =>
              by_cases hm : p ∈ st.endpoint_router_port_map
              · simpa [hm] using ⟨h1, h2⟩
              · simp only [hm, if_true, if_false, ite_false, ite_true]
                simp only [List.nodup_cons]
                exact ⟨h1, hm, h2⟩
  | lost p =>
      simp only [stepSession, handle_session_lost]
      cases mode with
      | TAT_TAP =>
          by_cases hm : p ∈ st.endpoint_switch_port_map
          · simp only [hm, ite_true]
            exact ⟨h1.erase p, h2⟩
          · simpa [hm] using ⟨h1, h2⟩
      | TAT_TUN =>
          by_cases hm : p ∈ st.endpoint_router_port_map
          · simp only [hm, ite_true]
            exact ⟨h1, h2.erase p⟩
          · simpa [hm] using ⟨h1, h2⟩

/-- Any sequence of session events keeps both port maps duplicate-free. -/
lemma runSession_preserves_nodup (mode : TapAdapterType)
    (events : List SessionEvent) :
    ∀ st : PortState, st.endpoint_switch_port_map.Nodup →
      st.endpoint_router_port_map.Nodup →
      (runSession mode st events).endpoint_switch_port_map.Nodup ∧
      (runSession mode st events).endpoint_router_port_map.Nodup := by
  induction events with
  | nil =>
      intro st h1 h2
      exact ⟨h1, h2⟩
  | cons e rest ih =>
      intro st h1 h2
      have hstep := stepSession_preserves_nodup mode st e h1 h2
      simpa only [runSession] using ih _ hstep.1 hstep.2

/-- C4: from a state with no handle for peer P and duplicate-free maps, a
session-established with is_new = true creates and registers exactly one
ForwardingPortHandle for P (one register call, handle count one, keyed in
the map of the configured mode); a subsequent session-established with
is_new = false changes nothing and issues nothing; a session-lost for P
removes the handle with exactly one unregister call; a second session-lost
for P is a no-op; and along any sequence of session events every peer
holds at most one handle in each map. -/
theorem session_port_handle_lifecycle (mode : TapAdapterType) (st : PortState)
    (P : EpType)
    (hs : P ∉ st.endpoint_switch_port_map)
    (hr : P ∉ st.endpoint_router_port_map)
    (n1 : st.endpoint_switch_port_map.Nodup)
    (n2 : st.endpoint_router_port_map.Nodup) :
    ((handle_session_established mode st P true).1.handleCount mode P = 1 ∧
     (handle_session_established mode st P true).2.length = 1) ∧
    (handle_session_established mode
        (handle_session_established mode st P true).1 P false =
      ((handle_session_established mode st P true).1, [])) ∧
    ((handle_session_lost mode
        (handle_session_established mode st P true).1 P).1.handleCount mode P = 0 ∧
     (handle_session_lost mode
        (handle_session_established mode st P true).1 P).2.length = 1) ∧
    (handle_session_lost mode
        (handle_session_lost mode
          (handle_session_established mode st P true).1 P).1 P =
      ((handle_session_lost mode
          (handle_session_established mode st P true).1 P).1, [])) ∧
    (∀ (events : List SessionEvent) (Q : EpType),
        (runSession mode st events).handleCount TapAdapterType.TAT_TAP Q ≤ 1 ∧
        (runSession mode st events).handleCount TapAdapterType.TAT_TUN Q ≤ 1) := by
  have hinv : ∀ (events : List SessionEvent) (Q : EpType),
      (runSession mode st events).handleCount TapAdapterType.TAT_TAP Q ≤ 1 ∧
      (runSession mode st events).handleCount TapAdapterType.TAT_TUN Q ≤ 1 := by
    intro events Q
    have hnd := runSession_preserves_nodup mode events st n1 n2
    exact ⟨(List.nodup_iff_count_le_one.mp hnd.1) Q,
           (List.nodup_iff_count_le_one.mp hnd.2) Q⟩
  cases mode with
  | TAT_TAP =>
      have e1 : handle_session_established TapAdapterType.TAT_TAP st P true =
          (⟨P :: st.endpoint_switch_port_map, st.endpoint_router_port_map⟩,
           [PortAction.registerSwitchPort P]) := by
        simp [handle_session_established, hs]
      have e2 : handle_session_lost TapAdapterType.TAT_TAP
          (⟨P :: st.endpoint_switch_port_map, st.endpoint_router_port_map⟩ :
            PortState) P =
          ((⟨st.endpoint_switch_port_map, st.endpoint_router_port_map⟩ :
            PortState), [PortAction.unregisterSwitchPort P]) := by
        simp [handle_session_lost]
      refine ⟨?_, ?_, ?_, ?_, hinv⟩
      · rw [e1]
        refine ⟨?_, rfl⟩
        simp [PortState.handleCount, List.count_cons_self,
          List.count_eq_zero_of_not_mem hs]
      · rw [e1]
        simp [handle_session_established]
      · rw [e1, e2]
        refine ⟨?_, rfl⟩
        simp [PortState.handleCount, List.count_eq_zero_of_not_mem hs]
      · rw [e1, e2]
        simp [handle_session_lost, hs]
  | TAT_TUN =>
      have e1 : handle_session_established TapAdapterType.TAT_TUN st P true =
          (⟨st.endpoint_switch_port_map, P :: st.endpoint_router_port_map⟩,
           [PortAction.registerRouterPort P]) := by
        simp [handle_session_established, hr]
      have e2 : handle_session_lost TapAdapterType.TAT_TUN
          (⟨st.endpoint_switch_port_map, P :: st.endpoint_router_port_map⟩ :
            PortState) P =
          ((⟨st.endpoint_switch_port_map, st.endpoint_router_port_map⟩ :
            PortState), [PortAction.unregisterRouterPort P]) := by
        simp [handle_session_lost]
      refine ⟨?_, ?_, ?_, ?_, hinv⟩
      · rw [e1]
        refine ⟨?_, rfl⟩
        simp [PortState.handleCount, List.count_cons_self,
          List.count_eq_zero_of_not_mem hr]
      · rw [e1]
        simp [handle_session_established]
      · rw [e1, e2]
        refine ⟨?_, rfl⟩
        simp [PortState.handleCount, List.count_eq_zero_of_not_mem hr]
      · rw [e1, e2]
        simp [handle_session_lost, hr]

/-- C4 witness: the lifecycle theorem applied in bridged (TAT_TAP) mode to
the empty port state and the peer 1:2. -/
theorem session_port_handle_lifecycle_witness :
    ((handle_session_established TapAdapterType.TAT_TAP ⟨[], []⟩ ⟨1, 2, true⟩
        true).1.handleCount TapAdapterType.TAT_TAP ⟨1, 2, true⟩ = 1 ∧
     (handle_session_established TapAdapterType.TAT_TAP ⟨[], []⟩ ⟨1, 2, true⟩
        true).2.length = 1) ∧
    (handle_session_established TapAdapterType.TAT_TAP
        (handle_session_established TapAdapterType.TAT_TAP ⟨[], []⟩ ⟨1, 2, true⟩
          true).1 ⟨1, 2, true⟩ false =
      ((handle_session_established TapAdapterType.TAT_TAP ⟨[], []⟩ ⟨1, 2, true⟩
          true).1, [])) ∧
    ((handle_session_lost TapAdapterType.TAT_TAP
        (handle_session_established TapAdapterType.TAT_TAP ⟨[], []⟩ ⟨1, 2, true⟩
          true).1 ⟨1, 2, true⟩).1.handleCount TapAdapterType.TAT_TAP
        ⟨1, 2, true⟩ = 0 ∧
     (handle_session_lost TapAdapterType.TAT_TAP
        (handle_session_established TapAdapterType.TAT_TAP ⟨[], []⟩ ⟨1, 2, true⟩
          true).1 ⟨1, 2, true⟩).2.length = 1) ∧
    (handle_session_lost TapAdapterType.TAT_TAP
        (handle_session_lost TapAdapterType.TAT_TAP
          (handle_session_established TapAdapterType.TAT_TAP ⟨[], []⟩
            ⟨1, 2, true⟩ true).1 ⟨1, 2, true⟩).1 ⟨1, 2, true⟩ =
      ((handle_session_lost TapAdapterType.TAT_TAP
          (handle_session_established TapAdapterType.TAT_TAP ⟨[], []⟩
            ⟨1, 2, true⟩ true).1 ⟨1, 2, true⟩).1, [])) ∧
    (∀ (events : List SessionEvent) (Q : EpType),
        (runSession TapAdapterType.TAT_TAP ⟨[], []⟩ events).handleCount
          TapAdapterType.TAT_TAP Q ≤ 1 ∧
        (runSession TapAdapterType.TAT_TAP ⟨[], []⟩ events).handleCount
          TapAdapterType.TAT_TUN Q ≤ 1) :=
  session_port_handle_lifecycle TapAdapterType.TAT_TAP ⟨[], []⟩ ⟨1, 2, true⟩
    (by decide) (by decide) (by decide) (by decide)

/-- Inserting a key absent from an association list appends the entry. -/
lemma map_insert_of_not_mem {K V : Type} [DecidableEq K]
    (m : List (K × V)) (k : K) (v : V) (h : k ∉ m.map Prod.fst) :
    map_insert m k v = m ++ [(k, v)] := by
  induction m with
  | nil => rfl
  | cons kv rest ih =>
      obtain ⟨k2, v2⟩ := kv
      simp only [List.map_cons, List.mem_cons, not_or] at h
      have hne : k2 ≠ k := fun he => h.1 he.symm
      simp only [map_insert, if_neg hne, List.cons_append]
      exact congrArg _ (ih h.2)

/-- One successful gather step, written out. -/
lemma gather_step {K V : Type} [DecidableEq K] (pend : List K)
    (res : List (K × V)) (k : K) (v : V) (hk : k ∈ pend)
    (hkres : k ∉ res.map Prod.fst) :
    gather (⟨pend, res⟩ : ResultsGatherer K V) k v =
      some (⟨pend.erase k, res ++ [(k, v)]⟩,
        if (pend.erase k).isEmpty then some (res ++ [(k, v)]) else none) := by
  unfold gather
  rw [if_pos hk, map_insert_of_not_mem res k v hkres]

/-- Gathering a value for every pending key exactly once empties the
pending set, accumulates all the entries, and fires the handler once with
the full map when the call list is nonempty (and never for no calls). -/
lemma runGather_complete {K V : Type} [DecidableEq K] (calls : List (K × V)) :
    ∀ (pend : List K) (res : List (K × V)),
      pend.Nodup →
      List.Perm (calls.map Prod.fst) pend →
      (∀ k, k ∈ calls.map Prod.fst → k ∉ res.map Prod.fst) →
      runGather ⟨pend, res⟩ calls =
        some (⟨[], res ++ calls⟩,
          if calls.isEmpty then [] else [res ++ calls]) := by
  induction calls with
  | nil =>
      intro pend res _ hp _
      have hpe : pend = [] := by
        have h0 : List.Perm pend ([] : List K) := by
          simpa using hp.symm
        exact h0.eq_nil
      subst hpe
      simp [runGather]
  | cons kv rest ih =>
      obtain ⟨k, v⟩ := kv
      intro pend res hnd hp hdisj
      simp only [List.map_cons] at hp
      have hk : k ∈ pend := hp.subset (by simp)
      have hknodup : (k :: rest.map Prod.fst).Nodup := hp.nodup_iff.mpr hnd
      have hkn : k ∉ rest.map Prod.fst := (List.nodup_cons.mp hknodup).1
      have hrest : List.Perm (rest.map Prod.fst) (pend.erase k) := by
        have h2 := hp.erase k
        simpa using h2
      have hkres : k ∉ res.map Prod.fst := hdisj k (by simp)
      have hg := gather_step pend res k v hk hkres
      have hdisj2 : ∀ k2, k2 ∈ rest.map Prod.fst →
          k2 ∉ (res ++ [(k, v)]).map Prod.fst := by
        intro k2 h2 hmem
        simp only [List.map_append, List.mem_append, List.map_cons,
          List.map_nil, List.mem_singleton] at hmem
        rcases hmem with hm | hm
        · exact hdisj k2 (by simp [h2]) hm
        · exact hkn (hm ▸ h2)
      have hih := ih (pend.erase k) (res ++ [(k, v)]) (hnd.erase k) hrest hdisj2
      by_cases hre : rest = []
      · subst hre
        have hpe : pend.erase k = [] := by
          have h0 : List.Perm (pend.erase k) ([] : List K) := by
            simpa using hrest.symm
          exact h0.eq_nil
        simp only [runGather, hg, hpe]
        simp
      · have hres : rest.isEmpty = false := by
          cases rest with
          | nil => exact absurd rfl hre
          | cons a l => rfl
        have hemp : (pend.erase k).isEmpty = false := by
          cases hpe : pend.erase k with
          | nil =>
              rw [hpe] at hrest
              exact absurd (by simpa using hrest.eq_nil) hre
          | cons a l => rfl
        rw [hres] at hih
        simp only [runGather, hg, hemp, if_false, Bool.false_eq_true, ite_false,
          hih, Option.toList_none, List.nil_append, List.isEmpty_cons]
        simp [List.append_assoc]

/-- Gathering only part of the pending keys (some key w stays pending)
accumulates the entries without ever firing the handler. -/
lemma runGather_incomplete {K V : Type} [DecidableEq K]
    (calls : List (K × V)) :
    ∀ (pend : List K) (res : List (K × V)) (w : K),
      pend.Nodup → (calls.map Prod.fst).Nodup →
      (∀ k, k ∈ calls.map Prod.fst → k ∈ pend) →
      (∀ k, k ∈ calls.map Prod.fst → k ∉ res.map Prod.fst) →
      w ∈ pend → w ∉ calls.map Prod.fst →
      ∃ pend2, runGather ⟨pend, res⟩ calls = some (⟨pend2, res ++ calls⟩, []) ∧
        w ∈ pend2 := by
  induction calls with
  | nil =>
      intro pend res w _ _ _ _ hw _
      exact ⟨pend, by simp [runGather], hw⟩
  | cons kv rest ih =>
      obtain ⟨k, v⟩ := kv
      intro pend res w hnd hcnd hsub hdisj hw hwn
      simp only [List.map_cons] at hcnd hsub hdisj hwn
      have hk : k ∈ pend := hsub k (by simp)
      have hkres : k ∉ res.map Prod.fst := hdisj k (by simp)
      have hknr : k ∉ rest.map Prod.fst := (List.nodup_cons.mp hcnd).1
      have hwk : w ≠ k := by
        intro he
        exact hwn (by simp [he])
      have hw2 : w ∈ pend.erase k := (List.mem_erase_of_ne hwk).mpr hw
      have hemp : (pend.erase k).isEmpty = false := by
        cases hpe : pend.erase k with
        | nil =>
            rw [hpe] at hw2
            cases hw2
        | cons a l => rfl
      have hg := gather_step pend res k v hk hkres
      have hdisj2 : ∀ k2, k2 ∈ rest.map Prod.fst →
          k2 ∉ (res ++ [(k, v)]).map Prod.fst := by
        intro k2 h2 hmem
        simp only [List.map_append, List.mem_append, List.map_cons,
          List.map_nil, List.mem_singleton] at hmem
        rcases hmem with hm | hm
        · exact hdisj k2 (by simp [h2]) hm
        · exact hknr (hm ▸ h2)
      have hsub2 : ∀ k2, k2 ∈ rest.map Prod.fst → k2 ∈ pend.erase k := by
        intro k2 h2
        have hne : k2 ≠ k := fun he => hknr (he ▸ h2)
        exact (List.mem_erase_of_ne hne).mpr (hsub k2 (by simp [h2]))
      obtain ⟨pend2, hrun, hwp⟩ := ih (pend.erase k) (res ++ [(k, v)]) w
        (hnd.erase k) (List.nodup_cons.mp hcnd).2 hsub2 hdisj2 hw2
        (fun hm => hwn (by simp [hm]))
      refine ⟨pend2, ?_, hwp⟩
      simp only [runGather, hg, hemp, Bool.false_eq_true, ite_false, hrun,
        Option.toList_none, List.nil_append]
      simp [List.append_assoc]

/-- C1 counterexample: a results_gatherer constructed with the empty
expected-key set, given the (unique) sequence of gather calls covering
each member of the empty set exactly once, never invokes its completion
handler: the handler fires only from inside gather, so it is invoked zero
times, not exactly once. -/
theorem results_gatherer_empty_keys_cex :
    runGather (⟨[], []⟩ : ResultsGatherer Nat Nat) [] = some (⟨[], []⟩, []) ∧
    ¬ ∃ g fires, runGather (⟨[], []⟩ : ResultsGatherer Nat Nat) [] =
        some (g, fires) ∧ fires.length = 1 := by
  refine ⟨rfl, ?_⟩
  rintro ⟨g, fires, heq, hlen⟩
  simp only [runGather, Option.some.injEq, Prod.mk.injEq] at heq
  rw [← heq.2] at hlen
  simp at hlen

/-- C1 amended: for every nonempty set of expected keys and every sequence
of gather calls covering each expected key exactly once, no call aborts,
the completion handler is invoked exactly once, with the accumulated
key-to-value map (here the association list of all the calls), and only on
the last call — every proper initial segment of the calls, during which
some key is still pending, produces no handler invocation. -/
theorem results_gatherer_fires_exactly_once {K V : Type} [DecidableEq K]
    (keys : List K) (calls : List (K × V))
    (hnd : keys.Nodup)
    (hcov : List.Perm (calls.map Prod.fst) keys)
    (hne : calls ≠ []) :
    runGather ⟨keys, []⟩ calls = some (⟨[], calls⟩, [calls]) ∧
    (∀ front back, calls = front ++ back → back ≠ [] →
      ∃ g2, runGather ⟨keys, []⟩ front = some (g2, [])) := by
  constructor
  · have h := runGather_complete calls keys [] hnd hcov (by simp)
    have hie : calls.isEmpty = false := by
      cases calls with
      | nil => exact absurd rfl hne
      | cons a l => rfl
    rw [hie] at h
    simpa using h
  · intro front back hsplit hbne
    cases back with
    | nil => exact absurd rfl hbne
    | cons b back2 =>
        subst hsplit
        have hcnd : ((front ++ b :: back2).map Prod.fst).Nodup :=
          hcov.nodup_iff.mpr hnd
        have hdec : (front ++ b :: back2).map Prod.fst =
            front.map Prod.fst ++ b.1 :: back2.map Prod.fst := by
          simp
        rw [hdec] at hcnd
        have hfnd : (front.map Prod.fst).Nodup :=
          List.Nodup.sublist (List.sublist_append_left _ _) hcnd
        have hdisj := List.disjoint_of_nodup_append hcnd
        have hwkeys : b.1 ∈ keys := by
          refine hcov.subset ?_
          rw [hdec]
          simp
        have hwf : b.1 ∉ front.map Prod.fst := by
          intro hmem
          exact hdisj hmem (by simp)
        have hsub : ∀ k, k ∈ front.map Prod.fst → k ∈ keys := by
          intro k hk
          refine hcov.subset ?_
          rw [hdec]
          exact List.mem_append_left _ hk
        obtain ⟨pend2, hrun, _⟩ := runGather_incomplete front keys [] b.1
          hnd hfnd hsub (by simp) hwkeys hwf
        exact ⟨⟨pend2, front⟩, by simpa using hrun⟩

/-- C1 witness: the amended theorem applied to the expected keys 1 and 2
and the gather calls (1, 10) then (2, 20). -/
theorem results_gatherer_fires_exactly_once_witness :
    runGather (⟨[1, 2], []⟩ : ResultsGatherer Nat Nat) [(1, 10), (2, 20)] =
      some (⟨[], [(1, 10), (2, 20)]⟩, [[(1, 10), (2, 20)]]) ∧
    (∀ front back, [(1, 10), (2, 20)] = front ++ back → back ≠ [] →
      ∃ g2, runGather (⟨[1, 2], []⟩ : ResultsGatherer Nat Nat) front =
        some (g2, [])) :=
  results_gatherer_fires_exactly_once [1, 2] [(1, 10), (2, 20)] (by decide)
    (List.Perm.refl [1, 2]) (by decide)

end Freelan
